import Mathlib

/-!
A shallow embedding of `src/main.py`: a FastAPI + MongoDB CRUD service over a
`User` resource.  Pydantic validation is embedded as pure functions on typed
payloads, the MongoDB collection as a state (a list of documents plus an
optional injected fault: when the fault is set, every storage call raises an
exception carrying the fault message), and each route handler as a function
from state and arguments to a handler result and a new state.  Exceptions that
escape a handler (there is no try/except in the delete and list handlers) are
modelled by the `unhandled` result.
-/

namespace MongoUserApi

/-- Unicode whitespace characters matched by Python's regex class `\s` on `str`. -/
def isPySpace (c : Char) : Bool :=
  c.toNat == 0x20 || c.toNat == 0x9 || c.toNat == 0xA || c.toNat == 0xB ||
  c.toNat == 0xC || c.toNat == 0xD ||
  (decide (0x1C ≤ c.toNat) && decide (c.toNat ≤ 0x1F)) ||
  c.toNat == 0x85 || c.toNat == 0xA0 || c.toNat == 0x1680 ||
  (decide (0x2000 ≤ c.toNat) && decide (c.toNat ≤ 0x200A)) ||
  c.toNat == 0x2028 || c.toNat == 0x2029 || c.toNat == 0x202F ||
  c.toNat == 0x205F || c.toNat == 0x3000

/-- A character accepted by the source's name pattern `^[a-zA-ZÀ-ÿ\s]+$`
(`À`–`ÿ` is the contiguous codepoint range U+00C0–U+00FF). -/
def isNameChar (c : Char) : Bool :=
  (decide (0x61 ≤ c.toNat) && decide (c.toNat ≤ 0x7A)) ||
  (decide (0x41 ≤ c.toNat) && decide (c.toNat ≤ 0x5A)) ||
  (decide (0xC0 ≤ c.toNat) && decide (c.toNat ≤ 0xFF)) ||
  isPySpace c

/-- `re.match(r'^[a-zA-ZÀ-ÿ\s]+$', v)` succeeds iff `v` is nonempty and every
character is in the class (the sole extra string `$` tolerates, one with a final
newline, has that newline in `\s`, so the all-characters form is exact). -/
def matchNameRegex (v : String) : Bool :=
  !v.data.isEmpty && v.data.all isNameChar

/-- The `name` field is accepted iff the `Field(min_length=2, max_length=80)`
constraints and the `name_must_contain_letters` validator all pass.  The same
conjunction governs `name` on both the create and the update model. -/
def nameOk (v : String) : Bool :=
  decide (2 ≤ v.length) && decide (v.length ≤ 80) && matchNameRegex v

/-- ASCII lower-casing of one character (`str.lower()` on the ASCII error
messages the handlers inspect). -/
def charToLower (c : Char) : Char :=
  if decide (0x41 ≤ c.toNat) && decide (c.toNat ≤ 0x5A) then
    Char.ofNat (c.toNat + 32)
  else c

/-- `str.lower()`. -/
def strToLower (s : String) : String :=
  ⟨s.data.map charToLower⟩

/-- Split a character list at every occurrence of `sep` (Python's `str.split`). -/
def splitOnChar (sep : Char) : List Char → List (List Char)
  | [] => [[]]
  | c :: rest =>
      match splitOnChar sep rest with
      | [] => if c == sep then [[], []] else [[c]]
      | h :: t => if c == sep then [] :: h :: t else (c :: h) :: t

/-- Modelled from the spec: "`email`: valid email-syntax string".  The source
delegates to pydantic's external `EmailStr` validator, which is not part of this
repository; simplified to one `@`, a nonempty local part and a dotted domain
with nonempty labels.  No claim depends on the precise accepted email grammar. -/
def emailOk (s : String) : Bool :=
  match splitOnChar '@' s.data with
  | [loc, domain] =>
      !loc.isEmpty && !domain.isEmpty && domain.contains '.' &&
        (splitOnChar '.' domain).all (fun t => !t.isEmpty)
  | _ => false

/-- Hex digits accepted by `bytes.fromhex` inside `ObjectId`. -/
def isHexDigitCh (c : Char) : Bool :=
  (decide (0x30 ≤ c.toNat) && decide (c.toNat ≤ 0x39)) ||
  (decide (0x61 ≤ c.toNat) && decide (c.toNat ≤ 0x66)) ||
  (decide (0x41 ≤ c.toNat) && decide (c.toNat ≤ 0x46))

/-- `bson.ObjectId.is_valid` on a string: exactly 24 hexadecimal characters. -/
def objectIdIsValid (s : String) : Bool :=
  s.length == 24 && s.data.all isHexDigitCh

/-- Does `needle` occur as a contiguous run inside `hay`?  (Python's `in` on
strings, used by the handlers to recognize duplicate-key messages.) -/
def hasSubstrL (needle : List Char) : List Char → Bool
  | [] => needle.isEmpty
  | c :: rest => needle.isPrefixOf (c :: rest) || hasSubstrL needle rest

/-- String form of `hasSubstrL`. -/
def hasSubstr (needle hay : String) : Bool :=
  hasSubstrL needle.data hay.data

/-- A persisted document of the `users` collection. -/
structure Doc where
  oid : String
  name : String
  email : String
  age : Int
  is_active : Bool
deriving DecidableEq

/-- The MongoDB collection as seen by the handlers: the stored documents plus an
optional injected fault.  While `fault` is set, every storage call raises an
exception whose `str()` is the fault message (the collaborator is external; this
is the standard failure-injection model of an unreliable store). -/
structure MongoState where
  docs : List Doc
  fault : Option String
deriving DecidableEq

/-- Message of the exception PyMongo raises on a unique-index violation; the
handlers recognize it by the substring "duplicate key error". -/
def dupKeyMsg : String :=
  "E11000 duplicate key error collection: userdb.users index: email_1 dup key"

/-- `users_collection.find_one({"_id": oid})`. -/
def mongoFindOne (st : MongoState) (oid : String) : Except String (Option Doc) :=
  match st.fault with
  | some m => .error m
  | none => .ok (st.docs.find? (fun d => d.oid == oid))

/-- `users_collection.insert_one`, with the unique index on `email` created at
startup: inserting a document whose email some stored document already has
raises the duplicate-key exception. -/
def mongoInsertOne (st : MongoState) (d : Doc) : Except String MongoState :=
  match st.fault with
  | some m => .error m
  | none =>
      if st.docs.any (fun x => x.email == d.email) then .error dupKeyMsg
      else .ok ⟨st.docs ++ [d], none⟩

/-- The sparse field set of a `$set` update document. -/
structure UpdateData where
  name : Option String
  email : Option String
  age : Option Int
  is_active : Option Bool
deriving DecidableEq

/-- `$set` applied to one document. -/
def applySet (ud : UpdateData) (d : Doc) : Doc :=
  { d with
    name := ud.name.getD d.name
    email := ud.email.getD d.email
    age := ud.age.getD d.age
    is_active := ud.is_active.getD d.is_active }

/-- Replace the first document with the given `_id` (MongoDB's `update_one`
touches at most one document). -/
def setFirstMatch (oid : String) (ud : UpdateData) : List Doc → List Doc
  | [] => []
  | d :: rest =>
      if d.oid == oid then applySet ud d :: rest
      else d :: setFirstMatch oid ud rest

/-- `users_collection.update_one({"_id": oid}, {"$set": ud})`, returning
`matched_count` and the new state.  Setting `email` to a value held by a
different stored document violates the unique index and raises the
duplicate-key exception. -/
def mongoUpdateOne (st : MongoState) (oid : String) (ud : UpdateData) :
    Except String (Nat × MongoState) :=
  match st.fault with
  | some m => .error m
  | none =>
      match st.docs.find? (fun d => d.oid == oid) with
      | none => .ok (0, st)
      | some d =>
          match ud.email with
          | some e =>
              if st.docs.any (fun x => x.email == e && x.oid != d.oid) then
                .error dupKeyMsg
              else .ok (1, ⟨setFirstMatch oid ud st.docs, none⟩)
          | none => .ok (1, ⟨setFirstMatch oid ud st.docs, none⟩)

/-- `users_collection.delete_one({"_id": oid})`, returning `deleted_count`. -/
def mongoDeleteOne (st : MongoState) (oid : String) :
    Except String (Nat × MongoState) :=
  match st.fault with
  | some m => .error m
  | none =>
      match st.docs.find? (fun d => d.oid == oid) with
      | none => .ok (0, st)
      | some _ =>
          .ok (1, ⟨st.docs.eraseP (fun d => d.oid == oid), none⟩)

/-- A creation payload (`UserCreate`): `is_active` defaults to `true` upstream. -/
structure CreatePayload where
  name : String
  email : String
  age : Int
  is_active : Bool
deriving DecidableEq

/-- One field-scoped pydantic validation error. -/
structure ValError where
  field : String
  reason : String
deriving DecidableEq

/-- Pydantic validation of `UserCreate` (the `Field` constraints plus the
`name_must_contain_letters` validator); errors carry the offending field. -/
def validateCreate (p : CreatePayload) : Except (List ValError) CreatePayload :=
  let errs :=
    (if nameOk p.name then [] else
      [⟨"name", "Name must contain only letters and spaces"⟩]) ++
    (if emailOk p.email then [] else
      [⟨"email", "value is not a valid email address"⟩]) ++
    (if decide (0 ≤ p.age) then [] else
      [⟨"age", "ensure this value is greater than or equal to 0"⟩])
  if errs.isEmpty then .ok p else .error errs

/-- Does `validateCreate` accept the `name` field (no name-scoped error)? -/
def createAcceptsName (p : CreatePayload) : Bool :=
  match validateCreate p with
  | .ok _ => true
  | .error errs => !errs.any (fun e => e.field == "name")

/-- A JSON field of an update payload: absent, explicit `null`, or a value. -/
inductive FieldVal (α : Type) where
  | unset
  | null
  | val (a : α)
deriving DecidableEq

/-- The value a field contributes to the sparse `$set` document: only a field
explicitly supplied with a non-null value contributes. -/
def FieldVal.toSet : FieldVal α → Option α
  | .val a => some a
  | _ => none

/-- An update payload (`UserUpdate`), field by field. -/
structure UserUpdate where
  name : FieldVal String
  email : FieldVal String
  age : FieldVal Int
  is_active : FieldVal Bool
deriving DecidableEq

/-- `{k: v for k, v in user_update.model_dump(exclude_unset=True).items() if v is not None}`. -/
def updateDataOf (u : UserUpdate) : UpdateData :=
  ⟨u.name.toSet, u.email.toSet, u.age.toSet, u.is_active.toSet⟩

/-- `not update_data` on the filtered dictionary. -/
def UpdateData.isEmpty (ud : UpdateData) : Bool :=
  ud.name.isNone && ud.email.isNone && ud.age.isNone && ud.is_active.isNone

/-- Failures of the spec's `validateUpdate`: a field-scoped validation error, or
the distinct nothing-to-do signal. -/
inductive UpdateValError where
  | validation (field : String) (reason : String)
  | emptyUpdate
deriving DecidableEq

/-- First pydantic validation error of a `UserUpdate` payload, if any (each
supplied field must satisfy the same per-field constraint as creation). -/
def updateFieldError (u : UserUpdate) : Option UpdateValError :=
  if (match u.name with | .val v => !nameOk v | _ => false) then
    some (.validation "name" "Name must contain only letters and spaces")
  else if (match u.email with | .val v => !emailOk v | _ => false) then
    some (.validation "email" "value is not a valid email address")
  else if (match u.age with | .val v => decide (v < 0) | _ => false) then
    some (.validation "age" "ensure this value is greater than or equal to 0")
  else none

/-- The spec's `validateUpdate`: pydantic validation of the supplied fields
(lines 42–52 of the source), then the sparse field set and the emptiness check
(lines 149–152). -/
def validateUpdate (u : UserUpdate) : Except UpdateValError UpdateData :=
  match updateFieldError u with
  | some e => .error e
  | none =>
      let ud := updateDataOf u
      if ud.isEmpty then .error .emptyUpdate else .ok ud

/-- The API-facing resource shape produced by `user_to_dict`. -/
structure UserOut where
  id : String
  name : String
  email : String
  age : Int
  is_active : Bool
deriving DecidableEq

/-- `user_to_dict` on a present document: rename `_id` to `id`. -/
def user_to_dict (d : Doc) : UserOut :=
  ⟨d.oid, d.name, d.email, d.age, d.is_active⟩

/-- What a route handler produces: a value, an `HTTPException` it raised with
its status and detail, or an exception that escaped the handler uncaught. -/
inductive HandlerResult (α : Type) where
  | ok (val : α)
  | httpError (status : Nat) (detail : String)
  | unhandled (msg : String)
deriving DecidableEq

/-- The document `insert_one` persists for a validated payload; MongoDB clients
generate the fresh `_id` on the driver side, passed here as `newOid`. -/
def docOfCreate (newOid : String) (p : CreatePayload) : Doc :=
  ⟨newOid, p.name, p.email, p.age, p.is_active⟩

/-- Helper `get_user_by_id` of the source: invalid ids give `None`, and the bare
`except: return None` turns every storage failure into `None` as well. -/
def get_user_by_id (st : MongoState) (user_id : String) : Option Doc :=
  if !objectIdIsValid user_id then none
  else
    match mongoFindOne st user_id with
    | .ok u => u
    | .error _ => none

/-- `POST /users` (`create_user`): insert, then fetch back; the surrounding
try/except maps a duplicate-key message to 409 and any other exception to 500. -/
def create_user (st : MongoState) (newOid : String) (p : CreatePayload) :
    HandlerResult UserOut × MongoState :=
  match mongoInsertOne st (docOfCreate newOid p) with
  | .error e =>
      if hasSubstr "duplicate key error" (strToLower e) then
        (.httpError 409 "User with this email already exists", st)
      else (.httpError 500 "Internal server error", st)
  | .ok st2 =>
      match mongoFindOne st2 newOid with
      | .error e =>
          if hasSubstr "duplicate key error" (strToLower e) then
            (.httpError 409 "User with this email already exists", st2)
          else (.httpError 500 "Internal server error", st2)
      | .ok (some d) => (.ok (user_to_dict d), st2)
      | .ok none => (.unhandled "ResponseValidationError", st2)

/-- `GET /users/{user_id}` (`get_user`). -/
def get_user (st : MongoState) (user_id : String) : HandlerResult UserOut :=
  if !objectIdIsValid user_id then .httpError 400 "Invalid user ID"
  else
    match get_user_by_id st user_id with
    | none => .httpError 404 "User not found"
    | some d => .ok (user_to_dict d)

/-- Body of `update_user`'s try block.  An `.error` is an exception reaching the
`except` clause; note that the `raise HTTPException(404)` on `matched_count == 0`
happens inside the try block, so it surfaces here as the caught exception string
`"404: User not found"` (Starlette's `HTTPException.__str__`), not as a response. -/
def update_try (st : MongoState) (user_id : String) (ud : UpdateData) :
    Except String (HandlerResult UserOut × MongoState) :=
  match mongoUpdateOne st user_id ud with
  | .error e => .error e
  | .ok (matched, st2) =>
      if matched == 0 then .error "404: User not found"
      else
        match get_user_by_id st2 user_id with
        | some d => .ok (.ok (user_to_dict d), st2)
        | none => .ok (.unhandled "ResponseValidationError", st2)

/-- `PUT /users/{user_id}` (`update_user`): id check, sparse field set and
emptiness check, then the try block; the except clause maps a duplicate-key
message to 409 and every other caught exception — including the handler's own
404 — to 500.  Exceptions only arise before any write, so the except clause
returns the unchanged state. -/
def update_user (st : MongoState) (user_id : String) (u : UserUpdate) :
    HandlerResult UserOut × MongoState :=
  if !objectIdIsValid user_id then (.httpError 400 "Invalid user ID", st)
  else
    let ud := updateDataOf u
    if ud.isEmpty then (.httpError 400 "No data provided for update", st)
    else
      match update_try st user_id ud with
      | .ok r => r
      | .error e =>
          if hasSubstr "duplicate key error" (strToLower e) then
            (.httpError 409 "User with this email already exists", st)
          else (.httpError 500 "Internal server error", st)

/-- `DELETE /users/{user_id}` (`delete_user`): no try/except, so a storage
failure escapes the handler uncaught. -/
def delete_user (st : MongoState) (user_id : String) :
    HandlerResult Unit × MongoState :=
  if !objectIdIsValid user_id then (.httpError 400 "Invalid user ID", st)
  else
    match mongoDeleteOne st user_id with
    | .error e => (.unhandled e, st)
    | .ok (0, st2) => (.httpError 404 "User not found", st2)
    | .ok (_ + 1, st2) => (.ok (), st2)

/-- An age predicate entry of the filter document: optional `$gte` and `$lte`. -/
structure AgePred where
  gte : Option Int
  lte : Option Int
deriving DecidableEq

/-- The filter document built by `get_users`: at most one entry per field. -/
structure FilterQuery where
  name : Option String
  age : Option AgePred
  is_active : Option Bool
deriving DecidableEq

/-- Lines 108–121 of the source: the dynamically assembled filter document.
`if q:` is Python truthiness, so the empty string adds no name predicate; a
single `age` entry combines `$gte` and `$lte` when both bounds are given. -/
def buildFilterQuery (q : Option String) (min_age max_age : Option Int)
    (is_active : Option Bool) : FilterQuery :=
  { name :=
      match q with
      | some s => if s.isEmpty then none else some s
      | none => none
    age :=
      if min_age.isSome || max_age.isSome then some ⟨min_age, max_age⟩ else none
    is_active := is_active }

/-- Does a stored document satisfy the filter document?  The name entry is a
`$regex` with `$options: "i"`; per the spec its intended semantics is
case-insensitive substring match, which is how the external store is modelled
here (no claim depends on regex metacharacters). -/
def docMatches (f : FilterQuery) (d : Doc) : Bool :=
  (match f.name with
   | none => true
   | some q => hasSubstr (strToLower q) (strToLower d.name)) &&
  (match f.age with
   | none => true
   | some a =>
       (match a.gte with | none => true | some m => decide (m ≤ d.age)) &&
       (match a.lte with | none => true | some m => decide (d.age ≤ m))) &&
  (match f.is_active with
   | none => true
   | some b => d.is_active == b)

/-- Sort order of the list endpoint: `sort("name", 1)`. -/
def nameLe (a b : Doc) : Prop := a.name ≤ b.name

instance : DecidableRel nameLe :=
  fun a b => inferInstanceAs (Decidable (a.name ≤ b.name))

instance : IsTotal Doc nameLe := ⟨fun a b => le_total a.name b.name⟩

instance : IsTrans Doc nameLe := ⟨fun _ _ _ h₁ h₂ => le_trans h₁ h₂⟩

/-- The same order on the mapped resources. -/
def outNameLe (a b : UserOut) : Prop := a.name ≤ b.name

/-- Line 124 of the source: `skip = (page - 1) * limit`. -/
def querySkip (page limit : Nat) : Nat :=
  (page - 1) * limit

/-- `GET /users` (`get_users`): build the filter, `skip = (page - 1) * limit`,
then `find(filter).sort("name", 1).skip(skip).limit(limit)` mapped through
`user_to_dict`.  No try/except, so a storage failure escapes uncaught.  The
store sort is modelled by stable insertion sort on the name key. -/
def get_users (st : MongoState) (q : Option String) (min_age max_age : Option Int)
    (is_active : Option Bool) (page limit : Nat) : HandlerResult (List UserOut) :=
  let f := buildFilterQuery q min_age max_age is_active
  let skip := querySkip page limit
  match st.fault with
  | some m => .unhandled m
  | none =>
      let sorted := List.insertionSort nameLe (st.docs.filter (docMatches f))
      .ok (((sorted.drop skip).take limit).map user_to_dict)

/-- The claim's predicate, following the spec's words "composed only of letters
(including accented Latin letters) and spaces": an ASCII letter, a Latin-1
accented letter (U+00C0–U+00FF minus the two non-letters × U+00D7 and ÷ U+00F7),
or the space character.  Kept separate from `isNameChar`, which is translated
from the source pattern, so the two can be compared. -/
def isSpecLetterOrSpace (c : Char) : Bool :=
  (decide (0x61 ≤ c.toNat) && decide (c.toNat ≤ 0x7A)) ||
  (decide (0x41 ≤ c.toNat) && decide (c.toNat ≤ 0x5A)) ||
  (decide (0xC0 ≤ c.toNat) && decide (c.toNat ≤ 0xFF) &&
    !(c.toNat == 0xD7) && !(c.toNat == 0xF7)) ||
  c == ' '

/-- A store holding one record, whose every storage call raises a network error. -/
def faultyState : MongoState :=
  ⟨[⟨"0123456789abcdef01234567", "Alice", "alice@example.com", 30, true⟩],
   some "connection reset by peer"⟩

/-- A healthy store with three records whose ages straddle the range [18,30]. -/
def rangeState : MongoState :=
  ⟨[⟨"00000000000000000000000a", "Carol", "carol@example.com", 25, true⟩,
    ⟨"00000000000000000000000b", "Bob", "bob@example.com", 17, true⟩,
    ⟨"00000000000000000000000c", "Dan", "dan@example.com", 40, false⟩], none⟩

/-- A healthy store with exactly fifteen records, pairwise distinct. -/
def fifteenState : MongoState :=
  ⟨[⟨"000000000000000000000001", "Ana", "u01@example.com", 21, true⟩,
    ⟨"000000000000000000000002", "Bea", "u02@example.com", 22, true⟩,
    ⟨"000000000000000000000003", "Cal", "u03@example.com", 23, true⟩,
    ⟨"000000000000000000000004", "Dee", "u04@example.com", 24, true⟩,
    ⟨"000000000000000000000005", "Eli", "u05@example.com", 25, true⟩,
    ⟨"000000000000000000000006", "Fay", "u06@example.com", 26, true⟩,
    ⟨"000000000000000000000007", "Gus", "u07@example.com", 27, true⟩,
    ⟨"000000000000000000000008", "Hal", "u08@example.com", 28, true⟩,
    ⟨"000000000000000000000009", "Ivy", "u09@example.com", 29, true⟩,
    ⟨"00000000000000000000000a", "Joe", "u10@example.com", 30, true⟩,
    ⟨"00000000000000000000000b", "Kim", "u11@example.com", 31, true⟩,
    ⟨"00000000000000000000000c", "Lou", "u12@example.com", 32, true⟩,
    ⟨"00000000000000000000000d", "Mia", "u13@example.com", 33, true⟩,
    ⟨"00000000000000000000000e", "Ned", "u14@example.com", 34, true⟩,
    ⟨"00000000000000000000000f", "Ola", "u15@example.com", 35, true⟩], none⟩

/-!  Helper lemmas. -/

/-- `user_to_dict` renames `_id` and keeps every field, so it is injective. -/
theorem user_to_dict_inj {a b : Doc} (h : user_to_dict a = user_to_dict b) :
    a = b := by
  cases a; cases b
  simp only [user_to_dict, UserOut.mk.injEq] at h
  simp [Doc.mk.injEq, h.1, h.2.1, h.2.2.1, h.2.2.2.1, h.2.2.2.2]

/-- `find?` on the id key returns the marked element when nothing before it has
the key. -/
theorem find_oid_append (pre post : List Doc) (e : Doc) (oidv : String)
    (heq : e.oid = oidv) (hpre : ∀ x ∈ pre, x.oid ≠ oidv) :
    (pre ++ e :: post).find? (fun d => d.oid == oidv) = some e := by
  induction pre with
  | nil => simp [List.find?, heq]
  | cons x xs ih =>
      have hx : (x.oid == oidv) = false := by
        simpa using hpre x (List.mem_cons_self x xs)
      simp only [List.cons_append, List.find?, hx]
      exact ih fun y hy => hpre y (List.mem_cons_of_mem x hy)

/-- `setFirstMatch` rewrites exactly the marked element when nothing before it
has the key. -/
theorem setFirstMatch_append (pre post : List Doc) (e : Doc) (oidv : String)
    (ud : UpdateData) (heq : e.oid = oidv) (hpre : ∀ x ∈ pre, x.oid ≠ oidv) :
    setFirstMatch oidv ud (pre ++ e :: post) = pre ++ applySet ud e :: post := by
  induction pre with
  | nil => simp [setFirstMatch, heq]
  | cons x xs ih =>
      have hx : (x.oid == oidv) = false := by
        simpa using hpre x (List.mem_cons_self x xs)
      simp only [List.cons_append, setFirstMatch, hx, if_false, Bool.false_eq_true]
      exact congrArg (x :: ·) (ih fun y hy => hpre y (List.mem_cons_of_mem x hy))

/-- `createAcceptsName` is exactly the name-field check: whether the other
fields fail does not affect the presence of a name-scoped error. -/
theorem createAcceptsName_eq (p : CreatePayload) :
    createAcceptsName p = nameOk p.name := by
  unfold createAcceptsName validateCreate
  cases hn : nameOk p.name <;> cases he : emailOk p.email <;>
    cases ha : decide (0 ≤ p.age) <;> simp

/-- The name-field check spelt out over the embedded pattern class. -/
theorem nameOk_iff (v : String) :
    nameOk v = true ↔
      2 ≤ v.length ∧ v.length ≤ 80 ∧ v.data.all isNameChar = true := by
  have hlen : v.length = v.data.length := rfl
  constructor
  · intro h
    simp only [nameOk, matchNameRegex, Bool.and_eq_true, decide_eq_true_iff,
      Bool.not_eq_true'] at h
    exact ⟨h.1.1, h.1.2, h.2.2⟩
  · rintro ⟨h2, h80, hall⟩
    have hne : v.data.isEmpty = false := by
      rcases hd : v.data with _ | _
      · rw [hlen, hd] at h2; simp at h2
      · rfl
    simp [nameOk, matchNameRegex, hall, h2, h80, hne]

/-!  Claims. -/

/-- C1: the code evaluated at the failing input.  For a syntactically valid
identifier matching no persisted record and a non-empty valid update payload,
the update operation does not fail with 404: the `HTTPException(404)` raised on
`matched_count == 0` inside the try block is caught by the blanket except clause
(its string holds no duplicate-key marker) and converted to the opaque
500 "Internal server error". -/
theorem claim1_update_missing_gives_500 :
    update_user ⟨[], none⟩ "0123456789abcdef01234567"
        ⟨.unset, .unset, .val 30, .unset⟩ =
      (.httpError 500 "Internal server error", ⟨[], none⟩) := by decide

/-- C2 counterexample: a storage failure during get-by-id is reported as
`NotFoundError` (404 "User not found"), not as an opaque `StorageError`: the
helper's bare `except: return None` swallows the raised exception, although the
requested record is present in the store. -/
theorem claim2_counterexample :
    faultyState.fault.isSome = true ∧
    (∃ d ∈ faultyState.docs, d.oid = "0123456789abcdef01234567") ∧
    get_user faultyState "0123456789abcdef01234567" =
      .httpError 404 "User not found" := by decide

/-- C2 amended: with a storage fault whose message is not the duplicate-key
signal, create and update surface the opaque 500 "Internal server error", but
get-by-id reports the failure as 404 "User not found" (the helper's bare except
returns `None`), and delete lets the exception escape the handler unhandled. -/
theorem claim2_amended (st : MongoState) (msg newOid uid : String)
    (p : CreatePayload) (u : UserUpdate)
    (hf : st.fault = some msg)
    (hdup : hasSubstr "duplicate key error" (strToLower msg) = false)
    (hid : objectIdIsValid uid = true)
    (hne : (updateDataOf u).isEmpty = false) :
    (create_user st newOid p).1 = .httpError 500 "Internal server error" ∧
    (update_user st uid u).1 = .httpError 500 "Internal server error" ∧
    get_user st uid = .httpError 404 "User not found" ∧
    (delete_user st uid).1 = .unhandled msg := by
  refine ⟨?_, ?_, ?_, ?_⟩ <;>
    simp [create_user, update_user, update_try, get_user, get_user_by_id,
      delete_user, mongoInsertOne, mongoUpdateOne, mongoDeleteOne, mongoFindOne,
      hf, hdup, hid, hne]

/-- C2 amended, at a concrete faulted store, a valid identifier and a non-empty
payload. -/
theorem claim2_amended_witness :
    (create_user ⟨[], some "connection reset by peer"⟩ "0123456789abcdef01234567"
        ⟨"Alice", "alice@example.com", 30, true⟩).1 =
      .httpError 500 "Internal server error" ∧
    (update_user ⟨[], some "connection reset by peer"⟩ "0123456789abcdef01234567"
        ⟨.unset, .unset, .val 30, .unset⟩).1 =
      .httpError 500 "Internal server error" ∧
    get_user ⟨[], some "connection reset by peer"⟩ "0123456789abcdef01234567" =
      .httpError 404 "User not found" ∧
    (delete_user ⟨[], some "connection reset by peer"⟩
        "0123456789abcdef01234567").1 = .unhandled "connection reset by peer" :=
  claim2_amended ⟨[], some "connection reset by peer"⟩ "connection reset by peer"
    "0123456789abcdef01234567" "0123456789abcdef01234567"
    ⟨"Alice", "alice@example.com", 30, true⟩ ⟨.unset, .unset, .val 30, .unset⟩
    rfl (by decide) (by decide) (by decide)

/-- C3 counterexample: the source pattern class `À-ÿ` is the codepoint range
U+00C0–U+00FF, which contains the multiplication sign × (U+00D7) — not a
letter.  The creation payload whose name is "A×" is accepted although its name
is not composed only of letters and spaces. -/
theorem claim3_counterexample :
    createAcceptsName ⟨"A×", "a@b.com", 5, true⟩ = true ∧
    ("A×".data.all isSpecLetterOrSpace) = false := by decide

/-- C3 amended: `validateCreate` accepts the `name` field iff its length lies in
[2,80] and every character is in the source pattern's class — an ASCII letter, a
character of the Latin-1 range U+00C0–U+00FF (a range that also contains the
non-letters × and ÷), or whitespace (not only the space character); in
particular "A1" still fails on `name`. -/
theorem claim3_amended :
    (∀ p : CreatePayload,
      createAcceptsName p = true ↔
        2 ≤ p.name.length ∧ p.name.length ≤ 80 ∧
          p.name.data.all isNameChar = true) ∧
    createAcceptsName ⟨"A1", "a@b.com", 5, true⟩ = false := by
  refine ⟨fun p => ?_, by decide⟩
  rw [createAcceptsName_eq]
  exact nameOk_iff p.name

/-- C5: an update payload in which no field is supplied, or every supplied field
is null, fails `validateUpdate` with `emptyUpdate`, a signal distinct from every
field-scoped `validation` error. -/
theorem claim5_empty_update (u : UserUpdate)
    (hn : u.name = .unset ∨ u.name = .null)
    (he : u.email = .unset ∨ u.email = .null)
    (ha : u.age = .unset ∨ u.age = .null)
    (hi : u.is_active = .unset ∨ u.is_active = .null) :
    validateUpdate u = .error .emptyUpdate ∧
    ∀ f r, UpdateValError.emptyUpdate ≠ UpdateValError.validation f r := by
  obtain ⟨n, e, a, i⟩ := u
  refine ⟨?_, fun f r h => UpdateValError.noConfusion h⟩
  rcases hn with rfl | rfl <;> rcases he with rfl | rfl <;>
    rcases ha with rfl | rfl <;> rcases hi with rfl | rfl <;> rfl

/-- C5 at the empty payload: `validateUpdate({})` fails with `EmptyUpdateError`. -/
theorem claim5_witness :
    validateUpdate ⟨.unset, .unset, .unset, .unset⟩ = .error .emptyUpdate ∧
    ∀ f r, UpdateValError.emptyUpdate ≠ UpdateValError.validation f r :=
  claim5_empty_update ⟨.unset, .unset, .unset, .unset⟩
    (Or.inl rfl) (Or.inl rfl) (Or.inl rfl) (Or.inl rfl)

/-- C8: a raw identifier that is not in the store's native format (24 hex
characters) makes each of get, update and delete fail with 400 "Invalid user
ID", returning the state unchanged; the result is the same for every store
state — including one whose every storage call would raise — so the store is
not touched. -/
theorem claim8_invalid_id (st : MongoState) (uid : String) (u : UserUpdate)
    (h : objectIdIsValid uid = false) :
    get_user st uid = .httpError 400 "Invalid user ID" ∧
    update_user st uid u = (.httpError 400 "Invalid user ID", st) ∧
    delete_user st uid = (.httpError 400 "Invalid user ID", st) := by
  refine ⟨?_, ?_, ?_⟩ <;> simp [get_user, update_user, delete_user, h]

/-- C8 at a malformed identifier against a store that would raise on any call. -/
theorem claim8_witness :
    get_user ⟨[], some "boom"⟩ "not-an-objectid" =
      .httpError 400 "Invalid user ID" ∧
    update_user ⟨[], some "boom"⟩ "not-an-objectid"
        ⟨.unset, .unset, .unset, .unset⟩ =
      (.httpError 400 "Invalid user ID", ⟨[], some "boom"⟩) ∧
    delete_user ⟨[], some "boom"⟩ "not-an-objectid" =
      (.httpError 400 "Invalid user ID", ⟨[], some "boom"⟩) :=
  claim8_invalid_id ⟨[], some "boom"⟩ "not-an-objectid"
    ⟨.unset, .unset, .unset, .unset⟩ (by decide)

/-- C9: supplying the search text as the empty string builds exactly the filter
document built with no search text (`if q:` is Python truthiness), and the whole
list operation — predicates, sort and pagination — returns the same result. -/
theorem claim9_empty_q (st : MongoState) (min_age max_age : Option Int)
    (is_active : Option Bool) (page limit : Nat) :
    buildFilterQuery (some "") min_age max_age is_active =
      buildFilterQuery none min_age max_age is_active ∧
    get_users st (some "") min_age max_age is_active page limit =
      get_users st none min_age max_age is_active page limit :=
  ⟨rfl, rfl⟩

/-- C4: creating two users with the same email against a store that holds no
record with that email yields exactly one success and one 409 conflict (the
store's duplicate-key signal on the unique email index, translated by the
handler), regardless of the other fields of either payload. -/
theorem claim4_duplicate_email (st : MongoState) (oid1 oid2 : String)
    (p1 p2 : CreatePayload)
    (hf : st.fault = none) (he : p1.email = p2.email)
    (hfresh : ∀ x ∈ st.docs, x.email ≠ p1.email)
    (hoid : ∀ x ∈ st.docs, x.oid ≠ oid1) :
    create_user st oid1 p1 =
      (.ok (user_to_dict (docOfCreate oid1 p1)),
       ⟨st.docs ++ [docOfCreate oid1 p1], none⟩) ∧
    (create_user ⟨st.docs ++ [docOfCreate oid1 p1], none⟩ oid2 p2).1 =
      .httpError 409 "User with this email already exists" := by
  have hany : st.docs.any (fun x => x.email == (docOfCreate oid1 p1).email) = false := by
    simp only [List.any_eq_false]
    intro x hx
    simpa [docOfCreate] using hfresh x hx
  have hins : mongoInsertOne st (docOfCreate oid1 p1) =
      .ok ⟨st.docs ++ [docOfCreate oid1 p1], none⟩ := by
    simp [mongoInsertOne, hf, hany]
  have hfind : (st.docs ++ [docOfCreate oid1 p1]).find? (fun d => d.oid == oid1) =
      some (docOfCreate oid1 p1) :=
    find_oid_append st.docs [] _ oid1 rfl hoid
  have hany2 : (st.docs ++ [docOfCreate oid1 p1]).any
      (fun x => x.email == (docOfCreate oid2 p2).email) = true := by
    refine List.any_eq_true.mpr ⟨docOfCreate oid1 p1, ?_, ?_⟩
    · exact List.mem_append_right _ (List.mem_singleton.mpr rfl)
    · simp [docOfCreate, he]
  have hdup : hasSubstr "duplicate key error" (strToLower dupKeyMsg) = true := by
    decide
  constructor
  · simp [create_user, hins, mongoFindOne, hfind]
  · simp [create_user, mongoInsertOne, hany2, hdup]

/-- C4 at two concrete payloads sharing an email, against the empty store. -/
theorem claim4_witness :
    create_user ⟨[], none⟩ "000000000000000000000001"
        ⟨"Alice", "dup@example.com", 30, true⟩ =
      (.ok (user_to_dict (docOfCreate "000000000000000000000001"
          ⟨"Alice", "dup@example.com", 30, true⟩)),
       ⟨[docOfCreate "000000000000000000000001"
          ⟨"Alice", "dup@example.com", 30, true⟩], none⟩) ∧
    (create_user ⟨[docOfCreate "000000000000000000000001"
          ⟨"Alice", "dup@example.com", 30, true⟩], none⟩
        "000000000000000000000002" ⟨"Bob", "dup@example.com", 25, false⟩).1 =
      .httpError 409 "User with this email already exists" :=
  claim4_duplicate_email ⟨[], none⟩ "000000000000000000000001"
    "000000000000000000000002" ⟨"Alice", "dup@example.com", 30, true⟩
    ⟨"Bob", "dup@example.com", 25, false⟩ rfl rfl (by decide) (by decide)

/-- C6: with both bounds given, the builder emits the single combined age-range
entry, and every resource the list operation returns has age in the inclusive
range, the result being sorted by name ascending. -/
theorem claim6_age_range (st : MongoState) (q : Option String) (minA maxA : Int)
    (act : Option Bool) (page limit : Nat) (hf : st.fault = none) :
    (buildFilterQuery q (some minA) (some maxA) act).age =
      some ⟨some minA, some maxA⟩ ∧
    ∃ L, get_users st q (some minA) (some maxA) act page limit = .ok L ∧
      (∀ x ∈ L, minA ≤ x.age ∧ x.age ≤ maxA) ∧
      List.Sorted outNameLe L := by
  obtain ⟨docs, fault⟩ := st
  obtain rfl : fault = none := hf
  refine ⟨rfl, _, rfl, ?_, ?_⟩
  · intro x hx
    obtain ⟨dd, hdd, rfl⟩ := List.mem_map.mp hx
    have h1 : dd ∈ List.insertionSort nameLe
        (docs.filter (docMatches (buildFilterQuery q (some minA) (some maxA) act))) :=
      List.mem_of_mem_drop (List.mem_of_mem_take hdd)
    have h2 := (List.perm_insertionSort nameLe _).mem_iff.mp h1
    have h3 := List.of_mem_filter h2
    simp only [docMatches, buildFilterQuery, Option.isSome_some, Bool.true_or,
      if_true, Bool.and_eq_true, decide_eq_true_eq] at h3
    simp only [user_to_dict]
    exact ⟨by tauto, by tauto⟩
  · have hs : List.Sorted nameLe (List.insertionSort nameLe
        (docs.filter (docMatches (buildFilterQuery q (some minA) (some maxA) act)))) :=
      List.sorted_insertionSort nameLe _
    have hsub : List.Sublist
        (((List.insertionSort nameLe
          (docs.filter (docMatches
            (buildFilterQuery q (some minA) (some maxA) act)))).drop
              (querySkip page limit)).take limit)
        (List.insertionSort nameLe
          (docs.filter (docMatches (buildFilterQuery q (some minA) (some maxA) act)))) :=
      (List.take_sublist _ _).trans (List.drop_sublist _ _)
    exact List.Pairwise.map user_to_dict (fun a b h => h)
      (List.Pairwise.sublist hsub hs)

/-- C6 at a concrete store and the bounds 18 and 30. -/
theorem claim6_witness :
    (buildFilterQuery none (some 18) (some 30) none).age =
      some ⟨some 18, some 30⟩ ∧
    ∃ L, get_users rangeState none (some 18) (some 30) none 1 10 = .ok L ∧
      (∀ x ∈ L, 18 ≤ x.age ∧ x.age ≤ 30) ∧
      List.Sorted outNameLe L :=
  claim6_age_range rangeState none 18 30 none 1 10 rfl

/-- C7: the builder computes `skip = (page - 1) * limit` and takes `limit`
records; over fifteen pairwise-distinct matching records with limit 10, page 1
returns exactly ten resources and page 2 exactly the remaining five, disjoint
from page 1. -/
theorem claim7_pagination (st : MongoState) (q : Option String)
    (minA maxA : Option Int) (act : Option Bool) (page limit : Nat)
    (hp : 1 ≤ page) (hl1 : 1 ≤ limit) (hl2 : limit ≤ 100)
    (hf : st.fault = none)
    (h15 : (st.docs.filter (docMatches (buildFilterQuery q minA maxA act))).length = 15)
    (hnd : (st.docs.filter (docMatches (buildFilterQuery q minA maxA act))).Nodup) :
    querySkip page limit = (page - 1) * limit ∧
    ∃ L1 L2,
      get_users st q minA maxA act 1 10 = .ok L1 ∧
      get_users st q minA maxA act 2 10 = .ok L2 ∧
      L1.length = 10 ∧ L2.length = 5 ∧ ∀ x ∈ L2, x ∉ L1 := by
  obtain ⟨docs, fault⟩ := st
  obtain rfl : fault = none := hf
  have hlenS : (List.insertionSort nameLe
      (docs.filter (docMatches (buildFilterQuery q minA maxA act)))).length = 15 :=
    (List.perm_insertionSort nameLe _).length_eq.trans h15
  have hndS : (List.insertionSort nameLe
      (docs.filter (docMatches (buildFilterQuery q minA maxA act)))).Nodup :=
    (List.perm_insertionSort nameLe _).nodup_iff.mpr hnd
  refine ⟨rfl, _, _, rfl, rfl, ?_, ?_, ?_⟩
  · rw [List.length_map, List.length_take, List.length_drop, hlenS]; decide
  · rw [List.length_map, List.length_take, List.length_drop, hlenS]; decide
  · intro x hx2 hx1
    obtain ⟨d2, hd2, hx2e⟩ := List.mem_map.mp hx2
    obtain ⟨d1, hd1, hx1e⟩ := List.mem_map.mp hx1
    obtain rfl : d1 = d2 := user_to_dict_inj (hx1e.trans hx2e.symm)
    have hd1S : d1 ∈ (List.insertionSort nameLe
        (docs.filter (docMatches (buildFilterQuery q minA maxA act)))).take 10 := hd1
    have hd2S : d1 ∈ (List.insertionSort nameLe
        (docs.filter (docMatches (buildFilterQuery q minA maxA act)))).drop 10 :=
      List.mem_of_mem_take hd2
    exact List.disjoint_take_drop hndS (le_refl 10) hd1S hd2S

/-- C7 at a concrete store of fifteen distinct matching records. -/
theorem claim7_witness :
    querySkip 2 10 = (2 - 1) * 10 ∧
    ∃ L1 L2,
      get_users fifteenState none none none none 1 10 = .ok L1 ∧
      get_users fifteenState none none none none 2 10 = .ok L2 ∧
      L1.length = 10 ∧ L2.length = 5 ∧ ∀ x ∈ L2, x ∉ L1 :=
  claim7_pagination fifteenState none none none none 2 10
    (by decide) (by decide) (by decide) rfl (by decide) (by decide)

/-- C10: explicitly supplied non-null falsy values survive the `v is not None`
filter: an update supplying only `is_active = false` (or only `age = 0`) is not
an empty update, succeeds, and sets exactly that field, every other field of the
matched record and every other record being unchanged. -/
theorem claim10_falsy_values (pre post : List Doc) (d : Doc)
    (hpre : ∀ x ∈ pre, x.oid ≠ d.oid)
    (hid : objectIdIsValid d.oid = true) :
    ((updateDataOf ⟨.unset, .unset, .unset, .val false⟩).isEmpty = false ∧
      update_user ⟨pre ++ d :: post, none⟩ d.oid ⟨.unset, .unset, .unset, .val false⟩ =
        (.ok ⟨d.oid, d.name, d.email, d.age, false⟩,
         ⟨pre ++ { d with is_active := false } :: post, none⟩)) ∧
    ((updateDataOf ⟨.unset, .unset, .val 0, .unset⟩).isEmpty = false ∧
      update_user ⟨pre ++ d :: post, none⟩ d.oid ⟨.unset, .unset, .val 0, .unset⟩ =
        (.ok ⟨d.oid, d.name, d.email, 0, d.is_active⟩,
         ⟨pre ++ { d with age := 0 } :: post, none⟩)) := by
  have hfind := find_oid_append pre post d d.oid rfl hpre
  constructor
  · refine ⟨rfl, ?_⟩
    have hset := setFirstMatch_append pre post d d.oid
      ⟨none, none, none, some false⟩ rfl hpre
    have hfind2 := find_oid_append pre post
      ⟨d.oid, d.name, d.email, d.age, false⟩ d.oid rfl hpre
    simp [update_user, update_try, mongoUpdateOne, get_user_by_id, mongoFindOne,
      hid, hfind, hset, hfind2, updateDataOf, FieldVal.toSet, UpdateData.isEmpty,
      user_to_dict, applySet, -List.find?_append]
  · refine ⟨rfl, ?_⟩
    have hset := setFirstMatch_append pre post d d.oid
      ⟨none, none, some 0, none⟩ rfl hpre
    have hfind2 := find_oid_append pre post
      ⟨d.oid, d.name, d.email, 0, d.is_active⟩ d.oid rfl hpre
    simp [update_user, update_try, mongoUpdateOne, get_user_by_id, mongoFindOne,
      hid, hfind, hset, hfind2, updateDataOf, FieldVal.toSet, UpdateData.isEmpty,
      user_to_dict, applySet, -List.find?_append]

/-- C10 at a one-record store. -/
theorem claim10_witness :
    ((updateDataOf ⟨.unset, .unset, .unset, .val false⟩).isEmpty = false ∧
      update_user ⟨[⟨"000000000000000000000001", "Alice", "alice@example.com", 30, true⟩], none⟩
          "000000000000000000000001" ⟨.unset, .unset, .unset, .val false⟩ =
        (.ok ⟨"000000000000000000000001", "Alice", "alice@example.com", 30, false⟩,
         ⟨[⟨"000000000000000000000001", "Alice", "alice@example.com", 30, false⟩], none⟩)) ∧
    ((updateDataOf ⟨.unset, .unset, .val 0, .unset⟩).isEmpty = false ∧
      update_user ⟨[⟨"000000000000000000000001", "Alice", "alice@example.com", 30, true⟩], none⟩
          "000000000000000000000001" ⟨.unset, .unset, .val 0, .unset⟩ =
        (.ok ⟨"000000000000000000000001", "Alice", "alice@example.com", 0, true⟩,
         ⟨[⟨"000000000000000000000001", "Alice", "alice@example.com", 0, true⟩], none⟩)) :=
  claim10_falsy_values []
    [] ⟨"000000000000000000000001", "Alice", "alice@example.com", 30, true⟩
    (by decide) (by decide)

end MongoUserApi
